import Mathlib

/-!
Verification of the TMP006 infrared temperature sensor driver
(`Adafruit_TMP/TMP006.py`) against its natural-language specification.

The driver is embedded shallowly:
* The I2C device is a state `TMP006` holding the 16-bit register file
  (as the device's logical big-endian register words) plus the logger
  configuration, which never influences any computed value.
* The external register transport (`Adafruit_GPIO.I2C`) is modelled from
  the spec's byte-order contract: `write16` is little-endian ordered, so
  the big-endian device latches the byte-swapped value; `readU16BE` and
  `readS16BE` assemble big-endian and return the register word.
* Python's arbitrary-precision integers are `Nat`/`Int`; the IEEE-754
  double arithmetic of the conversion formulas is modelled over `ℝ`,
  preserving the exact order of operations of the source.
* Every bus transaction a method performs is recorded in a `BusOp` trace.
-/

/- ### Calibration constants (whitepaper coefficients, from the source) -/

def TMP006_B0 : ℝ := -0.0000294
def TMP006_B1 : ℝ := -0.00000057
def TMP006_B2 : ℝ := 0.00000000463
def TMP006_C2 : ℝ := 13.4
def TMP006_TREF : ℝ := 298.15
def TMP006_A2 : ℝ := -0.00001678
def TMP006_A1 : ℝ := 0.00175
def TMP006_S0 : ℝ := 6.4

/- ### Register addresses and configuration masks (from the source) -/

def TMP006_CONFIG : ℕ := 0x02
def TMP006_MANID : ℕ := 0xFE
def TMP006_DEVID : ℕ := 0xFF
def TMP006_VOBJ : ℕ := 0x0
def TMP006_TAMB : ℕ := 0x01

def TMP006_CFG_RESET : ℕ := 0x8000
def TMP006_CFG_MODEON : ℕ := 0x7000
def CFG_1SAMPLE : ℕ := 0x0000
def CFG_2SAMPLE : ℕ := 0x0200
def CFG_4SAMPLE : ℕ := 0x0400
def CFG_8SAMPLE : ℕ := 0x0600
def CFG_16SAMPLE : ℕ := 0x0800
def TMP006_CFG_DRDYEN : ℕ := 0x0100
def TMP006_CFG_DRDY : ℕ := 0x0080

/-- Device/driver state: the device's 16-bit register file, indexed by
register address and stored as the logical big-endian register word, plus
the logger configuration of the driver object (which the numeric results
must not depend on). -/
structure TMP006 where
  regs : ℕ → ℕ
  loggerLevel : ℕ

/-- One bus transaction, as issued by the driver to the transport. -/
inductive BusOp where
  | write16 (reg val : ℕ) : BusOp
  | readU16BE (reg : ℕ) : BusOp
  | readS16BE (reg : ℕ) : BusOp
deriving DecidableEq

/-- The byte swap performed inline in `begin`:
`config = ((config & 0xFF) << 8) | (config >> 8)`. -/
def byteSwap16 (v : ℕ) : ℕ := ((v &&& 0xFF) <<< 8) ||| (v >>> 8)

/-- Modelled from the spec: the transport's signed read reinterprets a
16-bit word as a two's-complement signed value. -/
def toSigned (u : ℕ) : ℤ := if u < 0x8000 then (u : ℤ) else (u : ℤ) - 0x10000

/-- Modelled from the spec: the transport's `readU16BE` assembles the two
register bytes big-endian, returning the 16-bit register word. -/
def readU16BE (d : TMP006) (reg : ℕ) : ℕ := d.regs reg % 2 ^ 16

/-- Modelled from the spec: the transport's `readS16BE` is `readU16BE`
reinterpreted as a signed 16-bit value. -/
def readS16BE (d : TMP006) (reg : ℕ) : ℤ := toSigned (d.regs reg % 2 ^ 16)

/-- Modelled from the spec: the transport's `write16` transmits the low
byte of its 16-bit argument first, while the big-endian device latches the
first byte as the high byte of the register, so the register receives the
byte-swapped value. -/
def write16 (d : TMP006) (reg v : ℕ) : TMP006 :=
  { d with regs := fun a => if a = reg then byteSwap16 (v % 2 ^ 16) else d.regs a }

/-- Python's `>>` on `int`: an arithmetic right shift of the infinite
two's-complement representation. On `-(m+1)` (that is `Int.negSucc m`) it
gives `-((m >>> n) + 1)`, which is floor division by `2 ^ n`. -/
def pyShiftRight : ℤ → ℕ → ℤ
  | Int.ofNat m, n => Int.ofNat (m >>> n)
  | Int.negSucc m, n => Int.negSucc (m >>> n)

/-- The error message raised by `begin` on an invalid samplerate. -/
def samplerateError : String :=
  "Unexpected samplerate value! Must be one of: CFG_1SAMPLE, CFG_2SAMPLE, CFG_4SAMPLE, CFG_8SAMPLE, or CFG_16SAMPLE"

/-- The tuple of accepted samplerate arguments in `begin`. -/
def samplerateValues : List ℕ :=
  [CFG_1SAMPLE, CFG_2SAMPLE, CFG_4SAMPLE, CFG_8SAMPLE, CFG_16SAMPLE]

/-- `TMP006.begin(samplerate)`: raises `ValueError` unless `samplerate` is
one of the five `CFG_nSAMPLE` mask constants; otherwise builds the config
word, byte-swaps it, writes it to the CONFIG register and compares the
manufacturer and device IDs against the expected values. Returns the final
state, the trace of bus transactions, and the raised error or returned
boolean. -/
def begin (d : TMP006) (samplerate : ℕ) : TMP006 × List BusOp × Except String Bool :=
  if samplerate ∈ samplerateValues then
    let config := TMP006_CFG_MODEON ||| TMP006_CFG_DRDYEN ||| samplerate
    let config2 := byteSwap16 config
    let d2 := write16 d TMP006_CONFIG config2
    let mid := readU16BE d2 TMP006_MANID
    let did := readU16BE d2 TMP006_DEVID
    (d2,
     [BusOp.write16 TMP006_CONFIG config2, BusOp.readU16BE TMP006_MANID,
      BusOp.readU16BE TMP006_DEVID],
     Except.ok ((mid == 0x5449) && (did == 0x0067)))
  else
    (d, [], Except.error samplerateError)

/-- `TMP006.sleep()`: reads CONFIG, clears the mode-on bits, writes the
result back with the plain `write16` (no byte swap in the source). Python's
`control &= ~TMP006_CFG_MODEON` on a 16-bit nonnegative `control` is a mask
with the 16-bit complement `0xFFFF ^^^ 0x7000 = 0x8FFF`. -/
def sleep (d : TMP006) : TMP006 × List BusOp :=
  let control := readU16BE d TMP006_CONFIG
  let control2 := control &&& (0xFFFF ^^^ TMP006_CFG_MODEON)
  (write16 d TMP006_CONFIG control2,
   [BusOp.readU16BE TMP006_CONFIG, BusOp.write16 TMP006_CONFIG control2])

/-- `TMP006.wake()`: reads CONFIG, sets the mode-on bits, writes the result
back with the plain `write16` (no byte swap in the source). -/
def wake (d : TMP006) : TMP006 × List BusOp :=
  let control := readU16BE d TMP006_CONFIG
  let control2 := control ||| TMP006_CFG_MODEON
  (write16 d TMP006_CONFIG control2,
   [BusOp.readU16BE TMP006_CONFIG, BusOp.write16 TMP006_CONFIG control2])

/-- `TMP006.readRawVoltage()`: signed big-endian read of the object-voltage
register, returned untransformed. -/
def readRawVoltage (d : TMP006) : ℤ := readS16BE d TMP006_VOBJ

/-- `TMP006.readRawDieTemperature()`: signed big-endian read of the
ambient-temperature register, arithmetically right-shifted by 2
(`raw >> 2` in Python). -/
def readRawDieTemperature (d : TMP006) : ℤ :=
  pyShiftRight (readS16BE d TMP006_TAMB) 2

/-- `TMP006.readDieTempC()`: `readRawDieTemperature() * 0.03125`. -/
noncomputable def readDieTempC (d : TMP006) : ℝ :=
  (readRawDieTemperature d : ℝ) * 0.03125

/-- The arithmetic of `TMP006.readObjTempC()` as a function of the shifted
raw die count and the raw voltage count, statement for statement in the
source's order (float arithmetic modelled over `ℝ`). -/
noncomputable def objTempC (rawDie rawV : ℤ) : ℝ :=
  let Vobj0 : ℝ := (rawV : ℝ) * 156.25
  let Vobj : ℝ := Vobj0 / 1000000000.0
  let Tdie0 : ℝ := (rawDie : ℝ) * 0.03125
  let Tdie : ℝ := Tdie0 + 273.14
  let Tdie_ref : ℝ := Tdie - TMP006_TREF
  let S1 : ℝ := 1.0 + TMP006_A1 * Tdie_ref + TMP006_A2 * Tdie_ref ^ 2
  let S2 : ℝ := S1 * TMP006_S0
  let S3 : ℝ := S2 / 10000000.0
  let S : ℝ := S3 / 10000000.0
  let Vos : ℝ := TMP006_B0 + TMP006_B1 * Tdie_ref + TMP006_B2 * Tdie_ref ^ 2
  let fVobj : ℝ := (Vobj - Vos) + TMP006_C2 * (Vobj - Vos) ^ 2
  let Tobj : ℝ := Real.sqrt (Real.sqrt (Tdie ^ 4 + fVobj / S))
  Tobj - 273.15

/-- Modelled from the spec: the step sequence of spec section 4.3, written
from the spec's own wording (step 2: `Vobj = rawVoltage * 156.25 / 1e9`;
step 5: `S = S0 * (1 + A1*t + A2*t^2) / 1e7 / 1e7`; and so on), for
comparison with the source-derived `objTempC`. -/
noncomputable def objTempCSpecSteps (rawDie rawV : ℤ) : ℝ :=
  let Vobj : ℝ := (rawV : ℝ) * 156.25 / 1000000000.0
  let Tdie : ℝ := (rawDie : ℝ) * 0.03125 + 273.14
  let Tdie_ref : ℝ := Tdie - 298.15
  let S : ℝ := TMP006_S0 * (1 + TMP006_A1 * Tdie_ref + TMP006_A2 * Tdie_ref ^ 2)
      / 10000000.0 / 10000000.0
  let Vos : ℝ := TMP006_B0 + TMP006_B1 * Tdie_ref + TMP006_B2 * Tdie_ref ^ 2
  let fVobj : ℝ := (Vobj - Vos) + TMP006_C2 * (Vobj - Vos) ^ 2
  let Tobj : ℝ := Real.sqrt (Real.sqrt (Tdie ^ 4 + fVobj / S))
  Tobj - 273.15

/-- `TMP006.readObjTempC()`: reads the shifted raw die count and the raw
voltage count, then applies the conversion arithmetic. -/
noncomputable def readObjTempC (d : TMP006) : ℝ :=
  objTempC (readRawDieTemperature d) (readRawVoltage d)

/-- The spec's sample-rate table (section 6): rate in samples-per-conversion
to the `CFG_nSAMPLE` bitmask constant of the source. -/
def rateMask : ℕ → ℕ
  | 1 => CFG_1SAMPLE
  | 2 => CFG_2SAMPLE
  | 4 => CFG_4SAMPLE
  | 8 => CFG_8SAMPLE
  | 16 => CFG_16SAMPLE
  | _ => 0

/-- The spec's set of valid sample rates. -/
def rateList : List ℕ := [1, 2, 4, 8, 16]

/- ### Concrete states used by witnesses and counterexamples -/

/-- A device whose registers all read `c`. -/
def devConst (c : ℕ) : TMP006 := ⟨fun _ => c, 0⟩

/-- A device in the active state: CONFIG = 0x7400 (mode on, 4 samples). -/
def dev74 : TMP006 := devConst 0x7400

/-- A device answering the expected manufacturer and device IDs. -/
def devID : TMP006 :=
  ⟨fun a => if a = TMP006_MANID then 0x5449 else if a = TMP006_DEVID then 0x0067 else 0, 0⟩

/-- First device for the noninterference witness: VOBJ = 1000,
TAMB = 9600, everything else (CONFIG, IDs, logger) one way. -/
def devReadA : TMP006 :=
  ⟨fun a => if a = TMP006_VOBJ then 1000 else if a = TMP006_TAMB then 9600 else 0x7400, 0⟩

/-- Second device for the noninterference witness: same VOBJ and TAMB as
`devReadA`, different CONFIG, IDs and logger configuration. -/
def devReadB : TMP006 :=
  ⟨fun a => if a = TMP006_VOBJ then 1000 else if a = TMP006_TAMB then 9600 else 0x1234, 7⟩

/- ### Helper lemmas -/

/-- Python's arithmetic right shift by 2 is floor division by 4, on both
nonnegative and negative values. -/
lemma pyShiftRight_two_eq_fdiv (v : ℤ) : pyShiftRight v 2 = v.fdiv 4 := by
  cases v with
  | ofNat m =>
    show Int.ofNat (m >>> 2) = Int.fdiv (Int.ofNat m) (Int.ofNat 4)
    cases m with
    | zero => rfl
    | succ k =>
      show Int.ofNat ((k + 1) >>> 2) = Int.ofNat ((k + 1) / 4)
      rw [Nat.shiftRight_eq_div_pow]
  | negSucc m =>
    show Int.negSucc (m >>> 2) = Int.negSucc (m / 4)
    rw [Nat.shiftRight_eq_div_pow]

/-- Python's arithmetic right shift preserves the sign. -/
lemma pyShiftRight_nonneg_iff (v : ℤ) (n : ℕ) : 0 ≤ v ↔ 0 ≤ pyShiftRight v n := by
  cases v with
  | ofNat m =>
    constructor
    · intro _
      exact Int.ofNat_nonneg (m >>> n)
    · intro _
      exact Int.ofNat_nonneg m
  | negSucc m =>
    constructor
    · intro h
      exact absurd h (not_le.mpr (Int.negSucc_lt_zero m))
    · intro h
      exact absurd h (not_le.mpr (Int.negSucc_lt_zero (m >>> n)))

/-- Every signed big-endian register read lies in the signed 16-bit range. -/
lemma readS16BE_bounds (d : TMP006) (r : ℕ) :
    -32768 ≤ readS16BE d r ∧ readS16BE d r ≤ 32767 := by
  unfold readS16BE toSigned
  have h16 : (2 : ℕ) ^ 16 = 65536 := rfl
  rw [h16]
  split <;> omega

/-- On a valid samplerate mask, `begin` writes the byte-swapped config
word, reads both ID registers, and returns the ID comparison. -/
lemma begin_valid (d : TMP006) (m : ℕ) (h : m ∈ samplerateValues) :
    begin d m =
      (write16 d TMP006_CONFIG (byteSwap16 (TMP006_CFG_MODEON ||| TMP006_CFG_DRDYEN ||| m)),
       [BusOp.write16 TMP006_CONFIG (byteSwap16 (TMP006_CFG_MODEON ||| TMP006_CFG_DRDYEN ||| m)),
        BusOp.readU16BE TMP006_MANID, BusOp.readU16BE TMP006_DEVID],
       Except.ok ((readU16BE d TMP006_MANID == 0x5449) &&
                  (readU16BE d TMP006_DEVID == 0x0067))) := by
  simp only [begin]
  rw [if_pos h]
  rfl

/- ### Claims -/

/-- C7: for every device state, `readRawDieTemperature` returns the signed
16-bit ambient-temperature register value arithmetically right-shifted by 2,
which equals floor division by 4 (also for negative values), with the sign
preserved, and nothing else. -/
theorem claim_C7_rawDieTemperature_shift (d : TMP006) :
    readRawDieTemperature d = (readS16BE d TMP006_TAMB).fdiv 4 ∧
    (0 ≤ readS16BE d TMP006_TAMB ↔ 0 ≤ readRawDieTemperature d) := by
  constructor
  · exact pyShiftRight_two_eq_fdiv (readS16BE d TMP006_TAMB)
  · exact pyShiftRight_nonneg_iff (readS16BE d TMP006_TAMB) 2

/-- C7 witness: evaluation at a concrete state (all registers 0xFFFC, read
as -4; the shifted result is -1). -/
theorem claim_C7_rawDieTemperature_shift_witness :
    readRawDieTemperature (devConst 0xFFFC) = (readS16BE (devConst 0xFFFC) TMP006_TAMB).fdiv 4 ∧
    (0 ≤ readS16BE (devConst 0xFFFC) TMP006_TAMB ↔ 0 ≤ readRawDieTemperature (devConst 0xFFFC)) :=
  claim_C7_rawDieTemperature_shift (devConst 0xFFFC)

/-- C8: `readDieTempC` is the shifted raw die count times 0.03125; it is 0
when the ambient register reads 0 and 0.03125 when it reads 0x0004. -/
theorem claim_C8_dieTempC (d : TMP006) :
    readDieTempC d = (readRawDieTemperature d : ℝ) * 0.03125 ∧
    readDieTempC (devConst 0) = 0 ∧
    readDieTempC (devConst 4) = 0.03125 := by
  refine ⟨rfl, ?_, ?_⟩
  · have h : readRawDieTemperature (devConst 0) = 0 := rfl
    unfold readDieTempC
    rw [h]
    norm_num
  · have h : readRawDieTemperature (devConst 4) = 1 := rfl
    unfold readDieTempC
    rw [h]
    norm_num

/-- C9: the shifted raw die count always lies in [-8192, 8191], and the die
temperature in degrees celsius always lies in [-256.0, 255.96875]. -/
theorem claim_C9_dieTemp_range (d : TMP006) :
    (-32768 ≤ readS16BE d TMP006_TAMB ∧ readS16BE d TMP006_TAMB ≤ 32767) ∧
    (-8192 ≤ readRawDieTemperature d ∧ readRawDieTemperature d ≤ 8191) ∧
    (-256 ≤ readDieTempC d ∧ readDieTempC d ≤ 255.96875) := by
  obtain ⟨hlo, hhi⟩ := readS16BE_bounds d TMP006_TAMB
  have hr : readRawDieTemperature d = (readS16BE d TMP006_TAMB).fdiv 4 :=
    pyShiftRight_two_eq_fdiv (readS16BE d TMP006_TAMB)
  have hfd : (readS16BE d TMP006_TAMB).fdiv 4 = readS16BE d TMP006_TAMB / 4 :=
    Int.fdiv_eq_ediv (readS16BE d TMP006_TAMB) (by norm_num)
  have hb : -8192 ≤ readRawDieTemperature d ∧ readRawDieTemperature d ≤ 8191 := by
    rw [hr, hfd]
    omega
  refine ⟨⟨hlo, hhi⟩, hb, ?_, ?_⟩
  · have hc : ((-8192 : ℤ) : ℝ) ≤ (readRawDieTemperature d : ℝ) := by
      exact_mod_cast hb.1
    unfold readDieTempC
    push_cast at hc
    linarith
  · have hc : (readRawDieTemperature d : ℝ) ≤ ((8191 : ℤ) : ℝ) := by
      exact_mod_cast hb.2
    unfold readDieTempC
    push_cast at hc
    linarith

/-- C10: `readObjTempC` depends only on the ambient-temperature and
object-voltage registers: two states agreeing on those two registers
produce the same result, no matter how the configuration register, the ID
registers or the logger configuration differ. -/
theorem claim_C10_objTemp_noninterference (s1 s2 : TMP006)
    (ht : s1.regs TMP006_TAMB = s2.regs TMP006_TAMB)
    (hv : s1.regs TMP006_VOBJ = s2.regs TMP006_VOBJ) :
    readObjTempC s1 = readObjTempC s2 := by
  unfold readObjTempC readRawDieTemperature readRawVoltage readS16BE
  rw [ht, hv]

/-- C10 witness: two concrete states sharing only the two measurement
registers (and differing in CONFIG, the ID registers and the logger
configuration) yield equal results. -/
theorem claim_C10_objTemp_noninterference_witness :
    devReadA.regs TMP006_TAMB = devReadB.regs TMP006_TAMB ∧
    devReadA.regs TMP006_VOBJ = devReadB.regs TMP006_VOBJ ∧
    readObjTempC devReadA = readObjTempC devReadB :=
  ⟨rfl, rfl, claim_C10_objTemp_noninterference devReadA devReadB rfl rfl⟩

/-- The source's conversion arithmetic agrees with the spec's section 4.3
step sequence at every input (over `ℝ`, the only difference between the two
is the order of the factors in step 5, which multiplication commutativity
removes). -/
lemma objTempC_eq_specSteps (rawDie rawV : ℤ) :
    objTempC rawDie rawV = objTempCSpecSteps rawDie rawV := by
  simp only [objTempC, objTempCSpecSteps, TMP006_TREF]
  congr 2
  ring_nf

/-- C1: `readObjTempC` returns exactly the result of the spec section 4.3
step sequence on the shifted raw die count and the raw voltage count, for
every input pair; in particular at rawVoltage = 1000 and shifted
rawDieTemp = 2400 the two agree to within 1e-9 (float arithmetic modelled
over `ℝ`, where the agreement is exact). -/
theorem claim_C1_objTemp_follows_spec_steps :
    (∀ d : TMP006, readObjTempC d =
      objTempCSpecSteps (readRawDieTemperature d) (readRawVoltage d)) ∧
    (∀ rawDie rawV : ℤ, objTempC rawDie rawV = objTempCSpecSteps rawDie rawV) ∧
    |objTempC 2400 1000 - objTempCSpecSteps 2400 1000| ≤ 1e-9 := by
  refine ⟨?_, ?_, ?_⟩
  · intro d
    exact objTempC_eq_specSteps (readRawDieTemperature d) (readRawVoltage d)
  · intro rawDie rawV
    exact objTempC_eq_specSteps rawDie rawV
  · rw [objTempC_eq_specSteps, sub_self, abs_zero]
    norm_num

/-- C2 counterexample: the claim says `begin` fails exactly on samplerate
arguments outside {1, 2, 4, 8, 16}; in the code, samplerate 2 (a member of
that set) raises the ValueError, while samplerate 0 (not a member; it is
the CFG_1SAMPLE constant) is accepted. -/
theorem claim_C2_counterexample :
    ((begin (devConst 0) 2).2.2 = Except.error samplerateError ∧ 2 ∈ rateList) ∧
    ((begin (devConst 0) 0).2.2.isOk = true ∧ 0 ∉ rateList) := by
  refine ⟨⟨rfl, by decide⟩, ⟨rfl, by decide⟩⟩

/-- C2 (amended): `begin` raises the ValueError if and only if the
samplerate argument is not one of the five mask constants
{0x0000, 0x0200, 0x0400, 0x0600, 0x0800}, and when it raises, it does so
before any bus transaction: the state is unchanged and the bus trace is
empty. -/
theorem claim_C2_invalid_samplerate (d : TMP006) (sr : ℕ) :
    ((begin d sr).2.2 = Except.error samplerateError ↔ sr ∉ samplerateValues) ∧
    (sr ∉ samplerateValues → begin d sr = (d, [], Except.error samplerateError)) := by
  by_cases h : sr ∈ samplerateValues
  · refine ⟨⟨fun he => ?_, fun hn => absurd h hn⟩, fun hn => absurd h hn⟩
    rw [begin, if_pos h] at he
    exact Except.noConfusion he
  · refine ⟨⟨fun _ => h, fun _ => ?_⟩, fun _ => ?_⟩ <;> rw [begin, if_neg h]

/-- C2 witness: at samplerate 3 the error is raised with no bus traffic. -/
theorem claim_C2_invalid_samplerate_witness :
    begin (devConst 0) 3 = (devConst 0, [], Except.error samplerateError) :=
  (claim_C2_invalid_samplerate (devConst 0) 3).2 (by decide)

/-- C3: for every valid sample rate, `begin` builds the configuration word
(mode-on mask) | (data-ready-enable mask) | (sample-rate bitmask from the
table), passes its byte swap to the little-endian `write16`, and the device
register consequently receives the word itself, with the mode-on and
data-ready-enable bits set. -/
theorem claim_C3_config_word (d : TMP006) (r : ℕ) (hr : r ∈ rateList) :
    (begin d (rateMask r)).2.1 =
      [BusOp.write16 TMP006_CONFIG
        (byteSwap16 (TMP006_CFG_MODEON ||| TMP006_CFG_DRDYEN ||| rateMask r)),
       BusOp.readU16BE TMP006_MANID, BusOp.readU16BE TMP006_DEVID] ∧
    (begin d (rateMask r)).1.regs TMP006_CONFIG =
      TMP006_CFG_MODEON ||| TMP006_CFG_DRDYEN ||| rateMask r ∧
    (TMP006_CFG_MODEON ||| TMP006_CFG_DRDYEN ||| rateMask r) &&& TMP006_CFG_MODEON =
      TMP006_CFG_MODEON ∧
    (TMP006_CFG_MODEON ||| TMP006_CFG_DRDYEN ||| rateMask r) &&& TMP006_CFG_DRDYEN =
      TMP006_CFG_DRDYEN := by
  have h5 : r = 1 ∨ r = 2 ∨ r = 4 ∨ r = 8 ∨ r = 16 := by
    simpa [rateList] using hr
  have hmem : rateMask r ∈ samplerateValues := by
    rcases h5 with rfl | rfl | rfl | rfl | rfl <;> decide
  have hw := begin_valid d (rateMask r) hmem
  refine ⟨by rw [hw], ?_, ?_, ?_⟩
  · rw [hw]
    show byteSwap16 (byteSwap16 (TMP006_CFG_MODEON ||| TMP006_CFG_DRDYEN ||| rateMask r) % 2 ^ 16) =
      TMP006_CFG_MODEON ||| TMP006_CFG_DRDYEN ||| rateMask r
    rcases h5 with rfl | rfl | rfl | rfl | rfl <;> decide
  · rcases h5 with rfl | rfl | rfl | rfl | rfl <;> decide
  · rcases h5 with rfl | rfl | rfl | rfl | rfl <;> decide

/-- C3 witness: evaluation at rate 16 (mask 0x0800): the word is 0x7900,
the swapped value 0x0079 goes out, and the register receives 0x7900. -/
theorem claim_C3_config_word_witness :
    (begin (devConst 0) (rateMask 16)).2.1 =
      [BusOp.write16 TMP006_CONFIG
        (byteSwap16 (TMP006_CFG_MODEON ||| TMP006_CFG_DRDYEN ||| rateMask 16)),
       BusOp.readU16BE TMP006_MANID, BusOp.readU16BE TMP006_DEVID] ∧
    (begin (devConst 0) (rateMask 16)).1.regs TMP006_CONFIG =
      TMP006_CFG_MODEON ||| TMP006_CFG_DRDYEN ||| rateMask 16 ∧
    (TMP006_CFG_MODEON ||| TMP006_CFG_DRDYEN ||| rateMask 16) &&& TMP006_CFG_MODEON =
      TMP006_CFG_MODEON ∧
    (TMP006_CFG_MODEON ||| TMP006_CFG_DRDYEN ||| rateMask 16) &&& TMP006_CFG_DRDYEN =
      TMP006_CFG_DRDYEN :=
  claim_C3_config_word (devConst 0) 16 (by decide)

/-- C4: after writing the configuration, `begin` returns `.ok true` exactly
when the manufacturer-ID register reads 0x5449 and the device-ID register
reads 0x0067; on any other pair it returns `.ok false` — a boolean, never
an error. -/
theorem claim_C4_id_check (d : TMP006) (sr : ℕ) (h : sr ∈ samplerateValues) :
    (begin d sr).2.2 =
      Except.ok ((readU16BE d TMP006_MANID == 0x5449) &&
                 (readU16BE d TMP006_DEVID == 0x0067)) ∧
    ((begin d sr).2.2 = Except.ok true ↔
      (readU16BE d TMP006_MANID = 0x5449 ∧ readU16BE d TMP006_DEVID = 0x0067)) := by
  have h1 : (begin d sr).2.2 =
      Except.ok ((readU16BE d TMP006_MANID == 0x5449) &&
                 (readU16BE d TMP006_DEVID == 0x0067)) := by
    simp only [begin]
    rw [if_pos h]
    rfl
  refine ⟨h1, ?_⟩
  rw [h1]
  simp [Bool.and_eq_true, beq_iff_eq]

/-- C4 witness: a device answering the expected ID pair makes `begin`
return `.ok true`. -/
theorem claim_C4_id_check_witness :
    (begin devID CFG_16SAMPLE).2.2 =
      Except.ok ((readU16BE devID TMP006_MANID == 0x5449) &&
                 (readU16BE devID TMP006_DEVID == 0x0067)) ∧
    ((begin devID CFG_16SAMPLE).2.2 = Except.ok true ↔
      (readU16BE devID TMP006_MANID = 0x5449 ∧ readU16BE devID TMP006_DEVID = 0x0067)) :=
  claim_C4_id_check devID CFG_16SAMPLE (by decide)

/-- `Nat.testBit_mod_two_pow` restated for the numeral 65536 that numeral
normalization produces. -/
lemma testBit_mod_65536 (x i : ℕ) :
    (x % 65536).testBit i = (decide (i < 16) && x.testBit i) := by
  have h : (65536 : ℕ) = 2 ^ 16 := by norm_num
  rw [h, Nat.testBit_mod_two_pow]

/-- The core of the sleep/wake byte-order defect: after masking with
0x8FFF, byte-swapping, setting 0x7000, and byte-swapping again, the 0x7000
bits are clear — for every starting register value. -/
lemma sleepWake_clears_modeon_bits (x : ℕ) :
    byteSwap16 ((byteSwap16 ((x % 2 ^ 16 &&& (0xFFFF ^^^ 0x7000)) % 2 ^ 16) % 2 ^ 16 ||| 0x7000)
      % 2 ^ 16) &&& 0x7000 = 0 := by
  apply Nat.eq_of_testBit_eq
  intro i
  simp only [Nat.testBit_land, Nat.zero_testBit, Bool.and_eq_false_iff]
  rcases Nat.lt_or_ge i 15 with hi | hi
  · interval_cases i <;>
      simp +decide [byteSwap16, Nat.testBit_lor, Nat.testBit_land, Nat.testBit_shiftLeft,
        Nat.testBit_shiftRight, Nat.testBit_mod_two_pow, testBit_mod_65536]
  · right
    exact Nat.testBit_lt_two_pow (lt_of_lt_of_le (by norm_num)
      (Nat.pow_le_pow_right (by norm_num) hi))

/-- C5 (code evaluated at the failing input): with CONFIG reading 0x7400,
`sleep` computes 0x0400 and passes it to the little-endian `write16`
without the byte swap the claim requires (the swapped value would be
0x0004), so the device register receives 0x0004; `wake` likewise passes
0x7400 unswapped and the register receives 0x0074. Of the three writers,
only `begin` performs the swap. -/
theorem claim_C5_sleep_wake_missing_swap :
    (sleep dev74).2 =
      [BusOp.readU16BE TMP006_CONFIG, BusOp.write16 TMP006_CONFIG 0x0400] ∧
    byteSwap16 0x0400 = 0x0004 ∧
    (0x0400 : ℕ) ≠ byteSwap16 0x0400 ∧
    (sleep dev74).1.regs TMP006_CONFIG = 0x0004 ∧
    (wake dev74).2 =
      [BusOp.readU16BE TMP006_CONFIG, BusOp.write16 TMP006_CONFIG 0x7400] ∧
    (wake dev74).1.regs TMP006_CONFIG = 0x0074 := by
  exact ⟨by decide, by decide, by decide, by decide, by decide, by decide⟩

/-- C6 counterexample: starting from CONFIG = 0x7400 (mode-on bits set),
`sleep()` followed by `wake()` does not restore the mode-on bits of the
device config register. -/
theorem claim_C6_counterexample :
    dev74.regs TMP006_CONFIG &&& TMP006_CFG_MODEON = TMP006_CFG_MODEON ∧
    (wake (sleep dev74).1).1.regs TMP006_CONFIG &&& TMP006_CFG_MODEON ≠
      dev74.regs TMP006_CONFIG &&& TMP006_CFG_MODEON := by
  exact ⟨by decide, by decide⟩

/-- C6 (amended): `sleep` reads the config, clears the mode-on bits of the
read value and passes the result to the little-endian `write16` without a
byte swap, and `wake` reads the config, sets the mode-on bits and passes
the result to `write16` without a byte swap; because of the missing swaps,
`sleep()` followed by `wake()` leaves the device config register's mode-on
bits clear for every initial state, so the pre-sleep mode-on value is
restored exactly when it was already clear. -/
theorem claim_C6_sleep_wake_round_trip (d : TMP006) :
    (sleep d).2 = [BusOp.readU16BE TMP006_CONFIG,
      BusOp.write16 TMP006_CONFIG
        (readU16BE d TMP006_CONFIG &&& (0xFFFF ^^^ TMP006_CFG_MODEON))] ∧
    (wake d).2 = [BusOp.readU16BE TMP006_CONFIG,
      BusOp.write16 TMP006_CONFIG (readU16BE d TMP006_CONFIG ||| TMP006_CFG_MODEON)] ∧
    (wake (sleep d).1).1.regs TMP006_CONFIG &&& TMP006_CFG_MODEON = 0 := by
  refine ⟨rfl, rfl, ?_⟩
  show byteSwap16 ((byteSwap16 ((d.regs TMP006_CONFIG % 2 ^ 16 &&& (0xFFFF ^^^ 0x7000)) % 2 ^ 16)
      % 2 ^ 16 ||| 0x7000) % 2 ^ 16) &&& 0x7000 = 0
  exact sleepWake_clears_modeon_bits (d.regs TMP006_CONFIG)
